import Mathlib

/-!
Shallow embedding of the pixpong game server (diegok/pixpong).

The Go sources are embedded as Lean definitions: pure functions of the
`internal/game` package become Lean functions over `ℝ` (Go `float64`) and
`ℤ` (Go `int`); the server's mutation of `GameState` through pointers is
rendered as explicit state passing.  Randomness (`math/rand`) is rendered
as explicit parameters: the shuffle outcome, the coin flip for the launch
side and the `rand.Float64()` sample feeding the launch angle.  Go's `int`
division and remainder truncate toward zero, so they are rendered with
`Int.tdiv` and `Int.tmod`.
-/

namespace PixPong

/-- `protocol.Team` (internal/protocol): `TeamLeft = 0`, `TeamRight = 1`. -/
inductive Team where
  | left
  | right
deriving DecidableEq, Repr

/-- `protocol.Direction` (internal/protocol): `DirNone`, `DirUp`, `DirDown`. -/
inductive Direction where
  | none
  | up
  | down
deriving DecidableEq, Repr

/-! Integer constants of `internal/game/state.go`. -/

/-- `TickRate = 60` (ticks per second). -/
def TickRate : ℤ := 60

/-- `BasePaddleHeight = 5` (default paddle height). -/
def BasePaddleHeight : ℤ := 5

/-- `MinPaddleHeight = 3` (minimum paddle height). -/
def MinPaddleHeight : ℤ := 3

/-- `PaddleHeightPerPlayer = 1` (height reduction per additional player). -/
def PaddleHeightPerPlayer : ℤ := 1

/-- `GameState.CalculatePaddleHeight` (internal/game/state.go).  The Go
receiver `gs` is unused by the body, so the embedding is a plain function. -/
def CalculatePaddleHeight (playersPerSide : ℤ) : ℤ :=
  let height := BasePaddleHeight - (playersPerSide - 1) * PaddleHeightPerPlayer
  if height < MinPaddleHeight then MinPaddleHeight else height

noncomputable section

open scoped Classical

/-! Floating-point constants of `internal/game/state.go` and
`internal/game/paddle.go` (ball half), embedded as real numbers. -/

/-- `BaseSpeedCap = 1.5` (base maximum ball speed). -/
def BaseSpeedCap : ℝ := 1.5

/-- `SpeedCapPerPlayer = 0.3` (additional speed cap per player). -/
def SpeedCapPerPlayer : ℝ := 0.3

/-- `SpeedIncrement = 1.05` (5% speed increase per paddle hit). -/
def SpeedIncrement : ℝ := 1.05

/-- `InitialBallSpeed = 0.25` (internal/game/paddle.go, ball section). -/
def InitialBallSpeed : ℝ := 0.25

/-- `MaxBounceAngle = math.Pi / 3` (60 degrees max). -/
def MaxBounceAngle : ℝ := Real.pi / 3

/-- `PaddleTargetStep = 2.5` (how far the target moves per input;
smoothed-movement paddle variant, the one `state.go` calls into). -/
def PaddleTargetStep : ℝ := 2.5

/-- `PaddleSmoothSpeed = 0.4` (how fast the paddle moves toward its target). -/
def PaddleSmoothSpeed : ℝ := 0.4

/-- Go's conversion `int(x)` of a `float64`: truncation toward zero. -/
def truncToInt (x : ℝ) : ℤ :=
  if 0 ≤ x then ⌊x⌋ else ⌈x⌉

/-- `Ball` (internal/game/paddle.go, ball section). -/
structure Ball where
  x : ℝ
  y : ℝ
  vx : ℝ
  vy : ℝ

/-- `NewBall(x, y)`: velocity starts at the `float64` zero value. -/
def NewBall (x y : ℝ) : Ball :=
  { x := x, y := y, vx := 0, vy := 0 }

/-- `Ball.Move`: advance the ball by its velocity. -/
def Ball.move (b : Ball) : Ball :=
  { b with x := b.x + b.vx, y := b.y + b.vy }

/-- `Ball.BounceVertical`: reverse vertical direction (wall bounce). -/
def Ball.bounceVertical (b : Ball) : Ball :=
  { b with vy := -b.vy }

/-- `Ball.Speed`: `math.Sqrt(b.VX*b.VX + b.VY*b.VY)`. -/
def Ball.speed (b : Ball) : ℝ :=
  Real.sqrt (b.vx * b.vx + b.vy * b.vy)

/-- The bounce angle `Ball.BounceOffPaddle` computes: the hit position
relative to the paddle center, clamped into [−1, 1], times
`MaxBounceAngle`. -/
def Ball.bounceAngleAt (b : Ball) (paddleY : ℝ) (paddleHeight : ℤ) : ℝ :=
  let relativeHit0 := (b.y - paddleY) / ((paddleHeight : ℝ) / 2)
  let relativeHit1 := if relativeHit0 < -1 then -1 else relativeHit0
  let relativeHit := if relativeHit1 > 1 then 1 else relativeHit1
  relativeHit * MaxBounceAngle

/-- `Ball.BounceOffPaddle(paddleY, paddleHeight)`: reverse the horizontal
direction and recompute the velocity from the preserved speed magnitude
and the bounce angle. -/
def Ball.bounceOffPaddle (b : Ball) (paddleY : ℝ) (paddleHeight : ℤ) : Ball :=
  let bounceAngle := b.bounceAngleAt paddleY paddleHeight
  let speed := Real.sqrt (b.vx * b.vx + b.vy * b.vy)
  { b with
    vx := if b.vx > 0 then -speed * Real.cos bounceAngle else speed * Real.cos bounceAngle,
    vy := speed * Real.sin bounceAngle }

/-- `Ball.SpeedUp(factor)`: multiply both velocity components by `factor`. -/
def Ball.speedUp (b : Ball) (factor : ℝ) : Ball :=
  { b with vx := b.vx * factor, vy := b.vy * factor }

/-- `Ball.Reset(centerX, centerY, launchRight)`: place the ball at the
center and launch it toward the requested side.  `u` stands for the
`rand.Float64()` sample, so `angle = (u − 0.5) * π / 3`. -/
def Ball.reset (centerX centerY : ℝ) (launchRight : Bool) (u : ℝ) : Ball :=
  let angle := (u - 0.5) * Real.pi / 3
  let speed := InitialBallSpeed
  { x := centerX, y := centerY,
    vx := if launchRight then speed * Real.cos angle else -speed * Real.cos angle,
    vy := speed * Real.sin angle }

/-- `Paddle` in the smoothed-movement variant: the one whose
`ProcessInput`/`Update`/`TargetY` interface `state.go` calls into. -/
structure Paddle where
  id : ℤ
  team : Team
  column : ℤ
  y : ℝ
  targetY : ℝ
  height : ℤ
  color : ℤ
  courtHeight : ℤ

/-- `NewPaddle(id, team, column, color)`: remaining fields take Go zero
values. -/
def NewPaddle (id : ℤ) (team : Team) (column color : ℤ) : Paddle :=
  { id := id, team := team, column := column, color := color,
    y := 0, targetY := 0, height := 0, courtHeight := 0 }

/-- `Paddle.ProcessInput(dir)` (smoothed variant): move `TargetY` by
`PaddleTargetStep`, clamped into `[height/2, courtHeight − height/2]`. -/
def Paddle.processInput (p : Paddle) (dir : Direction) : Paddle :=
  let halfHeight := (p.height : ℝ) / 2
  let minY := halfHeight
  let maxY := (p.courtHeight : ℝ) - halfHeight
  match dir with
  | .up =>
    let t := p.targetY - PaddleTargetStep
    { p with targetY := if t < minY then minY else t }
  | .down =>
    let t := p.targetY + PaddleTargetStep
    { p with targetY := if t > maxY then maxY else t }
  | .none => p

/-- `Paddle.Update` (smoothed variant): interpolate toward `TargetY`,
then clamp `Y` to `[height/2, courtHeight − height/2]`. -/
def Paddle.update (p : Paddle) : Paddle :=
  let diff := p.targetY - p.y
  let y1 := p.y + diff * PaddleSmoothSpeed
  let halfHeight := (p.height : ℝ) / 2
  let y2 := if y1 < halfHeight then halfHeight else y1
  let maxY := (p.courtHeight : ℝ) - halfHeight
  { p with y := if y2 > maxY then maxY else y2 }

/-- `Paddle.ContainsY(y)`: is `y` within the paddle's vertical extent. -/
def Paddle.containsY (p : Paddle) (y : ℝ) : Prop :=
  y ≥ p.y - (p.height : ℝ) / 2 ∧ y ≤ p.y + (p.height : ℝ) / 2

/-- `game.PlayerInfo` (internal/game/state.go). -/
structure PlayerInfo where
  id : ℤ
  name : String

/-- `game.GameState` (internal/game/state.go).  `Paddles` holds values
rather than pointers; every Go mutation through a paddle pointer is
rendered as replacing that element of the list. -/
structure GameState where
  width : ℤ
  height : ℤ
  ball : Ball
  paddles : List Paddle
  players : List PlayerInfo
  leftScore : ℤ
  rightScore : ℤ
  pointsToWin : ℤ
  tick : ℤ
  paused : Bool
  pauseTicksLeft : ℤ
  lastScorer : Team
  waitingForServe : Bool
  servingTeam : Team

/-- `NewGameState(width, height, pointsToWin)`: unmentioned fields take Go
zero values (`TeamLeft` is the zero `Team`). -/
def NewGameState (width height pointsToWin : ℤ) : GameState :=
  { width := width, height := height, pointsToWin := pointsToWin,
    ball := NewBall ((width : ℝ) / 2) ((height : ℝ) / 2),
    paddles := [], players := [],
    leftScore := 0, rightScore := 0, tick := 0,
    paused := false, pauseTicksLeft := 0, lastScorer := .left,
    waitingForServe := false, servingTeam := .left }

/-- `GameState.AddPlayer(id, name)`: append a paddle (8 colors, wrap
around via Go's truncated `%`) and the player record.  The Go method also
returns the new paddle; only the state matters here. -/
def GameState.addPlayer (gs : GameState) (id : ℤ) (name : String) : GameState :=
  let color := Int.tmod (id - 1) 8
  let paddle := NewPaddle id .left 0 color
  { gs with paddles := gs.paddles ++ [paddle],
            players := gs.players ++ [{ id := id, name := name }] }

/-- `GameState.GetPaddle(id)`: first paddle with the given ID, `nil`
rendered as `none`. -/
def GameState.getPaddle (gs : GameState) (id : ℤ) : Option Paddle :=
  gs.paddles.find? (fun p => p.id == id)

/-- Go's mutation of the paddle `GetPaddle(id)` points at: apply `f` to
the first paddle carrying `id`, keep the rest. -/
def modifyPaddle (id : ℤ) (f : Paddle → Paddle) : List Paddle → List Paddle
  | [] => []
  | p :: rest => if p.id == id then f p :: rest else p :: modifyPaddle id f rest

/-- `GameState.ProcessInput(playerID, dir)`: move that player's paddle
immediately (no-op when `GetPaddle` is `nil`). -/
def GameState.processInput (gs : GameState) (playerID : ℤ) (dir : Direction) : GameState :=
  { gs with paddles := modifyPaddle playerID (fun p => p.processInput dir) gs.paddles }

/-- The `for i, p := range paddles` loop of `assignTeamPaddles`: set
team, column, height, court height and centered `Y`/`TargetY` on each
paddle, with `i` the running index. -/
def setTeamPaddles (team : Team) (height courtHeight columnStart columnSpacing : ℤ)
    (centerY : ℝ) : ℕ → List Paddle → List Paddle
  | _, [] => []
  | i, p :: rest =>
    { p with team := team, column := columnStart + ((i : ℤ) + 1) * columnSpacing,
             height := height, courtHeight := courtHeight,
             y := centerY, targetY := centerY }
      :: setTeamPaddles team height courtHeight columnStart columnSpacing centerY (i + 1) rest

/-- `GameState.assignTeamPaddles(paddles, team, height)`: pick the team's
column range and spacing (Go integer division, `Int.tdiv`), then run the
loop over the team's paddles. -/
def assignTeamPaddles (gs : GameState) (paddles : List Paddle) (team : Team) (height : ℤ) : List Paddle :=
  if paddles.length = 0 then paddles
  else
    let columnStart := if team = .left then 1 else Int.tdiv (gs.width * 3) 4
    let columnEnd := if team = .left then Int.tdiv gs.width 4 else gs.width - 1
    let columnRange := columnEnd - columnStart
    let spacing0 := Int.tdiv columnRange ((paddles.length : ℤ) + 1)
    let columnSpacing := if spacing0 < 1 then 1 else spacing0
    let centerY := (gs.height : ℝ) / 2
    setTeamPaddles team height gs.height columnStart columnSpacing centerY 0 paddles

/-- `GameState.AssignTeams`: split the shuffled roster into halves and set
both teams up, then reset the ball toward a random side.  `shuffled`
stands for the `rand.Shuffle` outcome (a permutation of `gs.Paddles`),
`launchRight` for `rand.Intn(2) == 0` and `u` for the `rand.Float64()`
sample inside `Ball.Reset`.  Go updates the paddles in place through the
shared pointers of the shuffled slice, so the resulting roster is (up to
order) the two assigned halves. -/
def GameState.assignTeams (gs : GameState) (shuffled : List Paddle) (launchRight : Bool) (u : ℝ) : GameState :=
  if gs.paddles.length = 0 then gs
  else
    let halfCount := shuffled.length / 2
    let leftTeam := shuffled.take halfCount
    let rightTeam := shuffled.drop halfCount
    let leftPaddleHeight := CalculatePaddleHeight (leftTeam.length : ℤ)
    let rightPaddleHeight := CalculatePaddleHeight (rightTeam.length : ℤ)
    { gs with
      paddles := assignTeamPaddles gs leftTeam .left leftPaddleHeight ++
        assignTeamPaddles gs rightTeam .right rightPaddleHeight,
      ball := Ball.reset ((gs.width : ℝ) / 2) ((gs.height : ℝ) / 2) launchRight u }

/-- `GameState.GetSpeedCap(playersPerSide)` =
`BaseSpeedCap + (playersPerSide − 1) * SpeedCapPerPlayer`.  The Go
receiver is unused by the body. -/
def GetSpeedCap (playersPerSide : ℤ) : ℝ :=
  BaseSpeedCap + ((playersPerSide - 1 : ℤ) : ℝ) * SpeedCapPerPlayer

/-- `GameState.countPlayersOnSide(team)`: how many paddles are on `team`. -/
def countPlayersOnSide (paddles : List Paddle) (team : Team) : ℕ :=
  (paddles.filter (fun p => p.team == team)).length

/-- The collision scan of `GameState.checkPaddleCollisions`: walk the
paddles in order; at the first paddle in the ball's column, containing the
ball's `Y` and with the ball moving toward it, bounce, speed up 5% and
clamp to the hit side's speed cap, then stop (`break`). -/
def collideBall (allPaddles : List Paddle) (ball : Ball) : List Paddle → Ball
  | [] => ball
  | p :: rest =>
    if truncToInt ball.x ≠ p.column then collideBall allPaddles ball rest
    else if ¬ p.containsY ball.y then collideBall allPaddles ball rest
    else if p.team = .left ∧ ball.vx > 0 then collideBall allPaddles ball rest
    else if p.team = .right ∧ ball.vx < 0 then collideBall allPaddles ball rest
    else
      let b1 := (ball.bounceOffPaddle p.y p.height).speedUp SpeedIncrement
      let speedCap := GetSpeedCap ((countPlayersOnSide allPaddles p.team : ℕ) : ℤ)
      if b1.speed > speedCap then
        let scale := speedCap / b1.speed
        { b1 with vx := b1.vx * scale, vy := b1.vy * scale }
      else b1

/-- `GameState.checkPaddleCollisions`. -/
def GameState.checkPaddleCollisions (gs : GameState) : GameState :=
  { gs with ball := collideBall gs.paddles gs.ball gs.paddles }

/-- `GameState.startPause`: one-second pause before the serve screen. -/
def GameState.startPause (gs : GameState) : GameState :=
  { gs with paused := true, pauseTicksLeft := TickRate }

/-- `GameState.CheckScore`: award a point when the ball is past either
edge.  The two Go `if` statements run in sequence. -/
def GameState.checkScore (gs : GameState) : GameState :=
  let gs1 :=
    if gs.ball.x < 0 then
      GameState.startPause { gs with rightScore := gs.rightScore + 1, lastScorer := .right }
    else gs
  if gs1.ball.x > (gs1.width : ℝ) then
    GameState.startPause { gs1 with leftScore := gs1.leftScore + 1, lastScorer := .left }
  else gs1

/-- `GameState.Update`: one game tick, exactly in the Go order — pause
countdown, paddle updates, serve wait, ball motion, wall bounce with
clamping, paddle collisions, scoring. -/
def GameState.update (gs0 : GameState) : GameState :=
  let gs := { gs0 with tick := gs0.tick + 1 }
  if gs.paused then
    let t := gs.pauseTicksLeft - 1
    if t ≤ 0 then
      { gs with paused := false, pauseTicksLeft := 0,
                waitingForServe := true, servingTeam := gs.lastScorer,
                ball := { gs.ball with x := (gs.width : ℝ) / 2, y := (gs.height : ℝ) / 2,
                                       vx := 0, vy := 0 } }
    else { gs with pauseTicksLeft := t }
  else
    let gs := { gs with paddles := gs.paddles.map Paddle.update }
    if gs.waitingForServe then gs
    else
      let gs := { gs with ball := gs.ball.move }
      let gs :=
        if gs.ball.y ≤ 0 ∨ gs.ball.y ≥ (gs.height : ℝ) then
          let b0 := gs.ball.bounceVertical
          let b1 := if b0.y < 0 then { b0 with y := 0 } else b0
          let b2 := if b1.y > (gs.height : ℝ) then { b1 with y := (gs.height : ℝ) } else b1
          { gs with ball := b2 }
        else gs
      GameState.checkScore (GameState.checkPaddleCollisions gs)

/-- `GameState.Serve(playerID)`: launch the ball when waiting for a serve
and the player is on the serving team; `u` stands for the `rand.Float64()`
sample inside `Ball.Reset`. -/
def GameState.serve (gs : GameState) (playerID : ℤ) (u : ℝ) : Bool × GameState :=
  if ¬ gs.waitingForServe then (false, gs)
  else
    match gs.getPaddle playerID with
    | none => (false, gs)
    | some paddle =>
      if paddle.team ≠ gs.servingTeam then (false, gs)
      else
        let launchRight := gs.servingTeam == Team.left
        (true,
         { gs with
           ball := Ball.reset ((gs.width : ℝ) / 2) ((gs.height : ℝ) / 2) launchRight u,
           waitingForServe := false })

/-- `GameState.IsGameOver`. -/
def GameState.isGameOver (gs : GameState) : Prop :=
  gs.leftScore ≥ gs.pointsToWin ∨ gs.rightScore ≥ gs.pointsToWin

/-!
The other paddle-movement variants that coexist in the repository (the
spec's design notes call out their coexistence).  Claim C9 is about all of
them, so each is embedded under its own namespace.
-/

namespace PaddleTimeout

/-- `PaddleSpeed = 1.2` (internal/game/paddle.go, paddle section). -/
def PaddleSpeed : ℝ := 1.2

/-- `MovementTimeout = 8` ticks. -/
def MovementTimeout : ℤ := 8

/-- `Paddle` of internal/game/paddle.go: direct movement with a
per-direction clamp and a movement timeout. -/
structure Paddle where
  id : ℤ
  team : Team
  column : ℤ
  y : ℝ
  height : ℤ
  color : ℤ
  direction : Direction
  courtHeight : ℤ
  movementTicks : ℤ

/-- `Paddle.Move` (internal/game/paddle.go): step by `PaddleSpeed` in the
held direction, clamp at the touched edge, run down the timeout. -/
def Paddle.move (p : Paddle) : Paddle :=
  let halfHeight := (p.height : ℝ) / 2
  let p1 :=
    match p.direction with
    | .up =>
      let y := p.y - PaddleSpeed
      { p with y := if y < halfHeight then halfHeight else y }
    | .down =>
      let y := p.y + PaddleSpeed
      let maxY := (p.courtHeight : ℝ) - halfHeight
      { p with y := if y > maxY then maxY else y }
    | .none => p
  if p1.movementTicks > 0 then
    let t := p1.movementTicks - 1
    if t = 0 then { p1 with movementTicks := t, direction := .none }
    else { p1 with movementTicks := t }
  else p1

end PaddleTimeout

namespace PaddleStep

/-- `PaddleMoveAmount = 1.5` (instant-step paddle variant). -/
def PaddleMoveAmount : ℝ := 1.5

/-- `Paddle` of the instant-step variant: `MoveUp`/`MoveDown` move by a
fixed amount with a clamp at the touched edge. -/
structure Paddle where
  id : ℤ
  team : Team
  column : ℤ
  y : ℝ
  height : ℤ
  color : ℤ
  courtHeight : ℤ

/-- `Paddle.MoveUp`. -/
def Paddle.moveUp (p : Paddle) : Paddle :=
  let halfHeight := (p.height : ℝ) / 2
  let y := p.y - PaddleMoveAmount
  { p with y := if y < halfHeight then halfHeight else y }

/-- `Paddle.MoveDown`. -/
def Paddle.moveDown (p : Paddle) : Paddle :=
  let halfHeight := (p.height : ℝ) / 2
  let maxY := (p.courtHeight : ℝ) - halfHeight
  let y := p.y + PaddleMoveAmount
  { p with y := if y > maxY then maxY else y }

/-- `Paddle.ProcessInput(dir)` of the instant-step variant. -/
def Paddle.processInput (p : Paddle) (dir : Direction) : Paddle :=
  match dir with
  | .up => p.moveUp
  | .down => p.moveDown
  | .none => p

end PaddleStep

namespace PaddleOnce

/-- `PaddleSpeed = 0.8` (press-per-move paddle variant). -/
def PaddleSpeed : ℝ := 0.8

/-- `Paddle` of the press-per-move variant: `Move` steps once in the held
direction, then resets the direction. -/
structure Paddle where
  id : ℤ
  team : Team
  column : ℤ
  y : ℝ
  height : ℤ
  color : ℤ
  direction : Direction
  courtHeight : ℤ

/-- `Paddle.Move` of the press-per-move variant. -/
def Paddle.move (p : Paddle) : Paddle :=
  let halfHeight := (p.height : ℝ) / 2
  let p1 :=
    match p.direction with
    | .up =>
      let y := p.y - PaddleSpeed
      { p with y := if y < halfHeight then halfHeight else y }
    | .down =>
      let y := p.y + PaddleSpeed
      let maxY := (p.courtHeight : ℝ) - halfHeight
      { p with y := if y > maxY then maxY else y }
    | .none => p
  { p1 with direction := .none }

end PaddleOnce

/-!
The server layer (the `server` package): only the parts the claims reach —
the client roster, `StartGame`'s court-size computation and
`BroadcastLobbyState`'s payloads.  Go's `map[int]*Client` is rendered as a
list of clients; the folds below do not depend on its iteration order.
-/

/-- `MinTermWidth = 40` (server package). -/
def MinTermWidth : ℤ := 40

/-- `MinTermHeight = 20` (server package). -/
def MinTermHeight : ℤ := 20

/-- The admitted-client data `StartGame` and `BroadcastLobbyState` read:
identity, display name and advertised terminal size. -/
structure Client where
  id : ℤ
  name : String
  width : ℤ
  height : ℤ

/-- The server state the claims reach: the roster and the configured
points-to-win (`cfg.PointsToWin` is fixed at startup). -/
structure Server where
  clients : List Client
  pointsToWin : ℤ

/-- The minimum-size recalculation inside `Server.StartGame`: fold the
clients' sizes starting from `MinTermWidth × MinTermHeight`. -/
def recalcMinSize (clients : List Client) : ℤ × ℤ :=
  (clients.foldl (fun acc c => if c.width < acc then c.width else acc) MinTermWidth,
   clients.foldl (fun acc c => if c.height < acc then c.height else acc) MinTermHeight)

/-- `Server.StartGame`: refuse with fewer than 2 clients, else create the
game state at the recalculated minimum size, add every client as a player
and assign teams.  `shuffled`, `launchRight` and `u` stand for the
randomness inside `AssignTeams`. -/
def Server.startGame (s : Server) (shuffled : List Paddle) (launchRight : Bool) (u : ℝ) :
    Option GameState :=
  if s.clients.length < 2 then none
  else
    let minWidth := (recalcMinSize s.clients).1
    let minHeight := (recalcMinSize s.clients).2
    let gs0 := NewGameState minWidth minHeight s.pointsToWin
    let gs1 := s.clients.foldl (fun gs c => gs.addPlayer c.id c.name) gs0
    some (gs1.assignTeams shuffled launchRight u)

/-- `protocol.LobbyPlayer`. -/
structure LobbyPlayer where
  id : String
  name : String
  color : ℤ
deriving DecidableEq, Repr

/-- `protocol.LobbyState`, the payload of one lobby broadcast.  Go's `nil`
address slice is the empty list. -/
structure LobbyState where
  players : List LobbyPlayer
  isHost : Bool
  canStart : Bool
  serverAddrs : List String
  pointsToWin : ℤ
deriving DecidableEq, Repr

/-- `Server.BroadcastLobbyState`: the payload sent to every client, paired
with the server state after the call (the Go method writes no server
field).  `addresses` stands for `GetServerAddresses()`, an OS query made
during the call. -/
def Server.broadcastLobbyState (s : Server) (addresses : List String) :
    List (ℤ × LobbyState) × Server :=
  let players := s.clients.map (fun c =>
    { id := toString c.id, name := c.name, color := Int.tmod (c.id - 1) 8 : LobbyPlayer })
  let canStart := decide (2 ≤ s.clients.length)
  (s.clients.map (fun c =>
    let isHost := c.id == 1
    (c.id,
     { players := players, isHost := isHost, canStart := canStart,
       serverAddrs := if isHost then addresses else [],
       pointsToWin := s.pointsToWin })),
   s)

/-- The lobby-phase game state `Server.StartGame` builds before calling
`AssignTeams`: `NewGameState` followed by `AddPlayer` for every joined
client. -/
def initialLobby (width height pointsToWin : ℤ) (roster : List (ℤ × String)) : GameState :=
  roster.foldl (fun gs pr => gs.addPlayer pr.1 pr.2) (NewGameState width height pointsToWin)

/-- The game states reachable from a match start: `AssignTeams` on a
freshly built roster, then any interleaving of `Update` ticks,
`ProcessInput` calls and `Serve` calls, with the randomness (shuffle
outcome, launch side, angle samples) arbitrary. -/
inductive Reach : GameState → Prop where
  | start (width height pointsToWin : ℤ) (roster : List (ℤ × String))
      (shuffled : List Paddle) (launchRight : Bool) (u : ℝ)
      (hperm : shuffled.Perm (initialLobby width height pointsToWin roster).paddles) :
      Reach ((initialLobby width height pointsToWin roster).assignTeams shuffled launchRight u)
  | tick {gs : GameState} : Reach gs → Reach gs.update
  | input {gs : GameState} (playerID : ℤ) (dir : Direction) :
      Reach gs → Reach (gs.processInput playerID dir)
  | serve {gs : GameState} (playerID : ℤ) (u : ℝ) :
      Reach gs → Reach (gs.serve playerID u).2

/-- The larger team's player count in a game state. -/
def maxTeamSize (gs : GameState) : ℕ :=
  max (countPlayersOnSide gs.paddles .left) (countPlayersOnSide gs.paddles .right)

/-- The paddle-position invariant the spec states:
`y ∈ [height/2, courtHeight − height/2]`. -/
def yInBounds (height courtHeight : ℤ) (y : ℝ) : Prop :=
  (height : ℝ) / 2 ≤ y ∧ y ≤ (courtHeight : ℝ) - (height : ℝ) / 2

/-- A minimal concrete state waiting for a left-team serve, for
evaluating the serve path at a concrete input. -/
def serveDemoState : GameState :=
  { width := 80, height := 24, ball := NewBall 40 12,
    paddles := [NewPaddle 1 Team.left 5 0], players := [{ id := 1, name := "a" }],
    leftScore := 0, rightScore := 1, pointsToWin := 10, tick := 120,
    paused := false, pauseTicksLeft := 0, lastScorer := .left,
    waitingForServe := true, servingTeam := .left }

end

/-! ## Theorems -/

/-- C7: for all `n ≥ 1`, `CalculatePaddleHeight` is non-increasing in `n`
and never below the configured floor `MinPaddleHeight`. -/
theorem calculatePaddleHeight_monotone_floored (n : ℤ) (h1 : 1 ≤ n) :
    CalculatePaddleHeight (n + 1) ≤ CalculatePaddleHeight n ∧
      MinPaddleHeight ≤ CalculatePaddleHeight n := by
  simp only [CalculatePaddleHeight, BasePaddleHeight, MinPaddleHeight, PaddleHeightPerPlayer]
  constructor
  · split_ifs <;> omega
  · split_ifs <;> omega

/-- C7 witness: the paddle-height bounds at `n = 1`. -/
theorem calculatePaddleHeight_monotone_floored_witness :
    CalculatePaddleHeight (1 + 1) ≤ CalculatePaddleHeight 1 ∧
      MinPaddleHeight ≤ CalculatePaddleHeight 1 :=
  calculatePaddleHeight_monotone_floored 1 (by norm_num)

/-- Recombining a velocity of magnitude `s ≥ 0` at any angle `A` keeps
magnitude `s`. -/
theorem sqrt_recombined (s A : ℝ) (hs : 0 ≤ s) :
    Real.sqrt (s * Real.cos A * (s * Real.cos A) + s * Real.sin A * (s * Real.sin A)) = s := by
  have h1 : s * Real.cos A * (s * Real.cos A) + s * Real.sin A * (s * Real.sin A)
      = s ^ 2 * (Real.sin A ^ 2 + Real.cos A ^ 2) := by ring
  rw [h1, Real.sin_sq_add_cos_sq, mul_one, Real.sqrt_sq hs]

/-- `BounceOffPaddle` preserves the speed, for every ball, paddle center
and paddle height. -/
theorem bounceOffPaddle_speed (b : Ball) (paddleY : ℝ) (paddleHeight : ℤ) :
    (b.bounceOffPaddle paddleY paddleHeight).speed = b.speed := by
  simp only [Ball.bounceOffPaddle, Ball.speed]
  split_ifs with h
  · convert sqrt_recombined (Real.sqrt (b.vx * b.vx + b.vy * b.vy))
      (b.bounceAngleAt paddleY paddleHeight) (Real.sqrt_nonneg _) using 2
    ring
  · convert sqrt_recombined (Real.sqrt (b.vx * b.vx + b.vy * b.vy))
      (b.bounceAngleAt paddleY paddleHeight) (Real.sqrt_nonneg _) using 2

/-- C4: for positive paddle heights and a moving ball, `BounceOffPaddle`
preserves the velocity magnitude (exactly, in the real-number model of
`float64`). -/
theorem bounceOffPaddle_preserves_speed (b : Ball) (paddleY : ℝ) (paddleHeight : ℤ)
    (hh : 0 < paddleHeight) (hv : ¬ (b.vx = 0 ∧ b.vy = 0)) :
    (b.bounceOffPaddle paddleY paddleHeight).speed = b.speed :=
  bounceOffPaddle_speed b paddleY paddleHeight

/-- C4 witness: a unit-upward ball bouncing off a height-5 paddle centered
at `y = 10`. -/
theorem bounceOffPaddle_preserves_speed_witness :
    (Ball.bounceOffPaddle { x := 3, y := 10, vx := 1, vy := 0 } 10 5).speed
      = Ball.speed { x := 3, y := 10, vx := 1, vy := 0 } :=
  bounceOffPaddle_preserves_speed { x := 3, y := 10, vx := 1, vy := 0 } 10 5
    (by norm_num) (by norm_num)

/-- C5: `BroadcastLobbyState` writes no server field, so calling it twice
with no roster change yields two identical payload lists (player list,
`isHost`, `canStart`, server addresses and `pointsToWin` alike). -/
theorem broadcastLobbyState_idempotent (s : Server) (addresses : List String) :
    (s.broadcastLobbyState addresses).2 = s ∧
      ((s.broadcastLobbyState addresses).2.broadcastLobbyState addresses).1
        = (s.broadcastLobbyState addresses).1 :=
  ⟨rfl, rfl⟩

/-- C3: `Serve` is honored exactly when the state is waiting for a serve
and the requesting player's paddle is on the serving team; whenever it
returns `false` the game state is left unchanged. -/
theorem serve_gated_and_frame (gs : GameState) (playerID : ℤ) (u : ℝ) :
    ((gs.serve playerID u).1 = true ↔
      gs.waitingForServe = true ∧
        ∃ p, gs.getPaddle playerID = some p ∧ p.team = gs.servingTeam) ∧
    ((gs.serve playerID u).1 = false → (gs.serve playerID u).2 = gs) := by
  unfold GameState.serve
  by_cases hw : gs.waitingForServe
  · cases hfind : gs.getPaddle playerID with
    | none => simp [hw, hfind]
    | some p =>
      by_cases ht : p.team = gs.servingTeam
      · simp [hw, hfind, ht]
      · simp [hw, hfind, ht]
  · simp [Bool.not_eq_true] at hw
    simp [hw]

/-- C8: with the ball past the left edge (and a court of non-negative
width), `CheckScore` gives the right team one point, leaves the left score
alone, records the right team as last scorer and starts the fixed pause. -/
theorem checkScore_right_scores (gs : GameState)
    (hx : gs.ball.x < 0) (hw : 0 ≤ gs.width) :
    gs.checkScore.rightScore = gs.rightScore + 1 ∧
    gs.checkScore.leftScore = gs.leftScore ∧
    gs.checkScore.lastScorer = Team.right ∧
    gs.checkScore.paused = true ∧
    gs.checkScore.pauseTicksLeft = TickRate := by
  have hwr : (0 : ℝ) ≤ (gs.width : ℝ) := by exact_mod_cast hw
  have hx2 : ¬ (gs.ball.x > (gs.width : ℝ)) := by linarith
  unfold GameState.checkScore GameState.startPause
  simp [hx, hx2]

/-- C8 witness: ball at `x = −0.5` on an 80-wide court. -/
theorem checkScore_right_scores_witness :
    (GameState.checkScore
      { width := 80, height := 24,
        ball := { x := -(1/2), y := 12, vx := -(1/4), vy := 0 },
        paddles := [], players := [], leftScore := 3, rightScore := 4,
        pointsToWin := 10, tick := 100, paused := false, pauseTicksLeft := 0,
        lastScorer := .left, waitingForServe := false,
        servingTeam := .left }).rightScore = 4 + 1 ∧
    (GameState.checkScore
      { width := 80, height := 24,
        ball := { x := -(1/2), y := 12, vx := -(1/4), vy := 0 },
        paddles := [], players := [], leftScore := 3, rightScore := 4,
        pointsToWin := 10, tick := 100, paused := false, pauseTicksLeft := 0,
        lastScorer := .left, waitingForServe := false,
        servingTeam := .left }).leftScore = 3 ∧
    (GameState.checkScore
      { width := 80, height := 24,
        ball := { x := -(1/2), y := 12, vx := -(1/4), vy := 0 },
        paddles := [], players := [], leftScore := 3, rightScore := 4,
        pointsToWin := 10, tick := 100, paused := false, pauseTicksLeft := 0,
        lastScorer := .left, waitingForServe := false,
        servingTeam := .left }).lastScorer = Team.right ∧
    (GameState.checkScore
      { width := 80, height := 24,
        ball := { x := -(1/2), y := 12, vx := -(1/4), vy := 0 },
        paddles := [], players := [], leftScore := 3, rightScore := 4,
        pointsToWin := 10, tick := 100, paused := false, pauseTicksLeft := 0,
        lastScorer := .left, waitingForServe := false,
        servingTeam := .left }).paused = true ∧
    (GameState.checkScore
      { width := 80, height := 24,
        ball := { x := -(1/2), y := 12, vx := -(1/4), vy := 0 },
        paddles := [], players := [], leftScore := 3, rightScore := 4,
        pointsToWin := 10, tick := 100, paused := false, pauseTicksLeft := 0,
        lastScorer := .left, waitingForServe := false,
        servingTeam := .left }).pauseTicksLeft = TickRate :=
  checkScore_right_scores _ (by norm_num) (by norm_num)

/-- `Ball.Reset` launches at speed exactly `InitialBallSpeed`, whatever
the angle sample and the side. -/
theorem reset_speed (cx cy : ℝ) (lr : Bool) (u : ℝ) :
    (Ball.reset cx cy lr u).speed = InitialBallSpeed := by
  simp only [Ball.reset, Ball.speed]
  have hs : (0 : ℝ) ≤ InitialBallSpeed := by norm_num [InitialBallSpeed]
  cases lr
  · simp only [Bool.false_eq_true, if_false]
    convert sqrt_recombined InitialBallSpeed ((u - 0.5) * Real.pi / 3) hs using 2
    ring
  · simp only [if_true]
    convert sqrt_recombined InitialBallSpeed ((u - 0.5) * Real.pi / 3) hs using 2

/-- The launch angle `(u − 0.5)·π/3` of a `rand.Float64()` sample
`u ∈ [0, 1)` has positive cosine. -/
theorem launch_angle_cos_pos (u : ℝ) (h0 : 0 ≤ u) (h1 : u < 1) :
    0 < Real.cos ((u - 0.5) * Real.pi / 3) := by
  have hπ := Real.pi_pos
  apply Real.cos_pos_of_mem_Ioo
  constructor
  · nlinarith [mul_nonneg h0 hπ.le]
  · nlinarith [mul_nonneg h0 hπ.le, mul_pos (by linarith : (0:ℝ) < 1 - u) hπ]

/-- The sign of the horizontal launch velocity of `Ball.Reset` matches the
requested side, for every angle sample `u ∈ [0, 1)`. -/
theorem reset_vx_pos_iff (cx cy : ℝ) (lr : Bool) (u : ℝ) (h0 : 0 ≤ u) (h1 : u < 1) :
    (0 < (Ball.reset cx cy lr u).vx ↔ lr = true) := by
  have hc := launch_angle_cos_pos u h0 h1
  have hibs : (0 : ℝ) < InitialBallSpeed := by norm_num [InitialBallSpeed]
  simp only [Ball.reset]
  cases lr
  · simp only [Bool.false_eq_true, if_false, iff_false, not_lt]
    nlinarith
  · simp only [if_true, iff_true]
    nlinarith

/-- C10: a `Serve` from a player on the serving team during
`WaitingForServe` succeeds: it clears the serve wait, recenters the ball,
launches it at exactly `InitialBallSpeed`, and its horizontal velocity is
positive exactly when the serving team is the left one. -/
theorem serve_success (gs : GameState) (playerID : ℤ) (u : ℝ)
    (hws : gs.waitingForServe = true)
    (p : Paddle) (hfind : gs.getPaddle playerID = some p)
    (hteam : p.team = gs.servingTeam)
    (hu0 : 0 ≤ u) (hu1 : u < 1) :
    (gs.serve playerID u).1 = true ∧
    (gs.serve playerID u).2.waitingForServe = false ∧
    (gs.serve playerID u).2.ball.x = (gs.width : ℝ) / 2 ∧
    (gs.serve playerID u).2.ball.y = (gs.height : ℝ) / 2 ∧
    (gs.serve playerID u).2.ball.speed = InitialBallSpeed ∧
    (0 < (gs.serve playerID u).2.ball.vx ↔ gs.servingTeam = Team.left) := by
  have hserve : gs.serve playerID u =
      (true,
       { gs with
         ball := Ball.reset ((gs.width : ℝ) / 2) ((gs.height : ℝ) / 2)
           (gs.servingTeam == Team.left) u,
         waitingForServe := false }) := by
    unfold GameState.serve
    simp [hws, hfind, hteam]
  rw [hserve]
  refine ⟨rfl, rfl, ?_, ?_, reset_speed _ _ _ _, ?_⟩
  · rfl
  · rfl
  · rw [reset_vx_pos_iff _ _ _ _ hu0 hu1, beq_iff_eq]

/-- Splitting a count over a roster concatenation. -/
theorem countPlayersOnSide_append (l1 l2 : List Paddle) (t : Team) :
    countPlayersOnSide (l1 ++ l2) t = countPlayersOnSide l1 t + countPlayersOnSide l2 t := by
  simp [countPlayersOnSide, List.filter_append]

/-- Every paddle the team-assignment loop emits carries the assigned team,
so the loop's output counts `l.length` for that team and `0` for the
other. -/
theorem countPlayersOnSide_setTeamPaddles (team : Team)
    (height courtHeight columnStart columnSpacing : ℤ) (centerY : ℝ) (t : Team)
    (i : ℕ) (l : List Paddle) :
    countPlayersOnSide
        (setTeamPaddles team height courtHeight columnStart columnSpacing centerY i l) t
      = if t = team then l.length else 0 := by
  induction l generalizing i with
  | nil => simp [setTeamPaddles, countPlayersOnSide]
  | cons p rest ih =>
    simp only [setTeamPaddles, countPlayersOnSide, List.filter_cons] at *
    by_cases h : t = team
    · subst h
      simp [ih]
    · have : ¬ (team = t) := fun hh => h hh.symm
      simp [this, h, ih]

/-- `assignTeamPaddles` output counts. -/
theorem countPlayersOnSide_assignTeamPaddles (gs : GameState) (l : List Paddle)
    (team t : Team) (h : ℤ) :
    countPlayersOnSide (assignTeamPaddles gs l team h) t = if t = team then l.length else 0 := by
  unfold assignTeamPaddles
  by_cases hl : l.length = 0
  · have : l = [] := List.length_eq_zero.mp hl
    subst this
    simp [countPlayersOnSide]
  · simp only [hl, if_false]
    exact countPlayersOnSide_setTeamPaddles team h gs.height _ _ _ t 0 l

/-- C6: for any roster of at least two paddles and any shuffle outcome,
`AssignTeams` puts every paddle on exactly one of the two teams and the
team sizes differ by at most one. -/
theorem assignTeams_balanced (gs : GameState) (shuffled : List Paddle)
    (launchRight : Bool) (u : ℝ)
    (hperm : shuffled.Perm gs.paddles) (hn : 2 ≤ gs.paddles.length) :
    countPlayersOnSide (gs.assignTeams shuffled launchRight u).paddles .left
        + countPlayersOnSide (gs.assignTeams shuffled launchRight u).paddles .right
      = gs.paddles.length ∧
    (countPlayersOnSide (gs.assignTeams shuffled launchRight u).paddles .left : ℤ)
        - (countPlayersOnSide (gs.assignTeams shuffled launchRight u).paddles .right : ℤ) ≤ 1 ∧
    (countPlayersOnSide (gs.assignTeams shuffled launchRight u).paddles .right : ℤ)
        - (countPlayersOnSide (gs.assignTeams shuffled launchRight u).paddles .left : ℤ) ≤ 1 := by
  have hlen := hperm.length_eq
  have hne : ¬ (gs.paddles.length = 0) := by omega
  simp only [GameState.assignTeams, hne, if_false]
  simp only [countPlayersOnSide_append, countPlayersOnSide_assignTeamPaddles,
    List.length_take, List.length_drop]
  have hL : Team.left ≠ Team.right := by decide
  have hR : Team.right ≠ Team.left := by decide
  simp only [hL, hR, if_true, if_false, eq_self_iff_true]
  omega

/-- C6 witness: a two-player roster split by the identity shuffle. -/
theorem assignTeams_balanced_witness :
    countPlayersOnSide
        ((initialLobby 80 24 10 [(1, "a"), (2, "b")]).assignTeams
          (initialLobby 80 24 10 [(1, "a"), (2, "b")]).paddles true 0).paddles .left
        + countPlayersOnSide
          ((initialLobby 80 24 10 [(1, "a"), (2, "b")]).assignTeams
            (initialLobby 80 24 10 [(1, "a"), (2, "b")]).paddles true 0).paddles .right
      = (initialLobby 80 24 10 [(1, "a"), (2, "b")]).paddles.length ∧
    (countPlayersOnSide
        ((initialLobby 80 24 10 [(1, "a"), (2, "b")]).assignTeams
          (initialLobby 80 24 10 [(1, "a"), (2, "b")]).paddles true 0).paddles .left : ℤ)
        - (countPlayersOnSide
          ((initialLobby 80 24 10 [(1, "a"), (2, "b")]).assignTeams
            (initialLobby 80 24 10 [(1, "a"), (2, "b")]).paddles true 0).paddles .right : ℤ) ≤ 1 ∧
    (countPlayersOnSide
        ((initialLobby 80 24 10 [(1, "a"), (2, "b")]).assignTeams
          (initialLobby 80 24 10 [(1, "a"), (2, "b")]).paddles true 0).paddles .right : ℤ)
        - (countPlayersOnSide
          ((initialLobby 80 24 10 [(1, "a"), (2, "b")]).assignTeams
            (initialLobby 80 24 10 [(1, "a"), (2, "b")]).paddles true 0).paddles .left : ℤ) ≤ 1 :=
  assignTeams_balanced (initialLobby 80 24 10 [(1, "a"), (2, "b")])
    (initialLobby 80 24 10 [(1, "a"), (2, "b")]).paddles true 0
    (List.Perm.refl _) (by rfl)

/-- C9: every paddle-movement operation of every variant present in the
repository keeps the paddle center inside
`[height/2, courtHeight − height/2]` (for the smoothed variant,
`ProcessInput` moves only the target, never `Y`). -/
theorem paddle_movement_keeps_bounds :
    (∀ p : Paddle, 0 < p.height → p.height ≤ p.courtHeight →
        yInBounds p.height p.courtHeight p.y →
        (yInBounds p.height p.courtHeight p.update.y ∧
          ∀ dir, (p.processInput dir).y = p.y)) ∧
    (∀ p : PaddleTimeout.Paddle, 0 < p.height → p.height ≤ p.courtHeight →
        yInBounds p.height p.courtHeight p.y →
        yInBounds p.height p.courtHeight p.move.y) ∧
    (∀ p : PaddleStep.Paddle, 0 < p.height → p.height ≤ p.courtHeight →
        yInBounds p.height p.courtHeight p.y →
        (yInBounds p.height p.courtHeight p.moveUp.y ∧
         yInBounds p.height p.courtHeight p.moveDown.y ∧
         ∀ dir, yInBounds p.height p.courtHeight (p.processInput dir).y)) ∧
    (∀ p : PaddleOnce.Paddle, 0 < p.height → p.height ≤ p.courtHeight →
        yInBounds p.height p.courtHeight p.y →
        yInBounds p.height p.courtHeight p.move.y) := by
  refine ⟨?_, ?_, ?_, ?_⟩
  · intro p hpos hle hin
    have hb : (p.height : ℝ) ≤ (p.courtHeight : ℝ) := by exact_mod_cast hle
    obtain ⟨h1, h2⟩ := hin
    constructor
    · unfold yInBounds Paddle.update
      dsimp only
      split_ifs <;> constructor <;> linarith
    · intro dir
      cases dir <;> rfl
  · intro p hpos hle hin
    have hb : (p.height : ℝ) ≤ (p.courtHeight : ℝ) := by exact_mod_cast hle
    have hs : (0 : ℝ) ≤ PaddleTimeout.PaddleSpeed := by norm_num [PaddleTimeout.PaddleSpeed]
    obtain ⟨h1, h2⟩ := hin
    unfold yInBounds PaddleTimeout.Paddle.move
    cases p.direction <;> dsimp only <;> split_ifs <;> constructor <;> dsimp only <;> linarith
  · intro p hpos hle hin
    have hb : (p.height : ℝ) ≤ (p.courtHeight : ℝ) := by exact_mod_cast hle
    have hs : (0 : ℝ) ≤ PaddleStep.PaddleMoveAmount := by norm_num [PaddleStep.PaddleMoveAmount]
    obtain ⟨h1, h2⟩ := hin
    refine ⟨?_, ?_, ?_⟩
    · unfold yInBounds PaddleStep.Paddle.moveUp
      dsimp only
      split_ifs <;> constructor <;> linarith
    · unfold yInBounds PaddleStep.Paddle.moveDown
      dsimp only
      split_ifs <;> constructor <;> linarith
    · intro dir
      cases dir
      · exact ⟨h1, h2⟩
      · unfold yInBounds PaddleStep.Paddle.processInput PaddleStep.Paddle.moveUp
        dsimp only
        split_ifs <;> constructor <;> linarith
      · unfold yInBounds PaddleStep.Paddle.processInput PaddleStep.Paddle.moveDown
        dsimp only
        split_ifs <;> constructor <;> linarith
  · intro p hpos hle hin
    have hb : (p.height : ℝ) ≤ (p.courtHeight : ℝ) := by exact_mod_cast hle
    have hs : (0 : ℝ) ≤ PaddleOnce.PaddleSpeed := by norm_num [PaddleOnce.PaddleSpeed]
    obtain ⟨h1, h2⟩ := hin
    unfold yInBounds PaddleOnce.Paddle.move
    cases p.direction <;> dsimp only <;> (try split_ifs) <;> constructor <;>
      (try dsimp only) <;> linarith

/-! Helper lemmas for the speed-cap invariant (C2). -/

/-- Scaling both velocity components scales the speed by `|c|`. -/
theorem speed_scale (b : Ball) (c : ℝ) :
    Ball.speed { b with vx := b.vx * c, vy := b.vy * c } = |c| * b.speed := by
  simp only [Ball.speed]
  rw [show b.vx * c * (b.vx * c) + b.vy * c * (b.vy * c)
      = c ^ 2 * (b.vx * b.vx + b.vy * b.vy) from by ring]
  rw [Real.sqrt_mul (sq_nonneg c), Real.sqrt_sq_eq_abs]

/-- A wall bounce preserves the speed. -/
theorem bounceVertical_speed (b : Ball) : b.bounceVertical.speed = b.speed := by
  simp only [Ball.bounceVertical, Ball.speed]
  congr 1
  ring

/-- Every speed cap is at least `1.2` (the cap of an empty side). -/
theorem getSpeedCap_lb (n : ℕ) : (6 / 5 : ℝ) ≤ GetSpeedCap (n : ℤ) := by
  unfold GetSpeedCap BaseSpeedCap SpeedCapPerPlayer
  have hn : (0 : ℝ) ≤ (n : ℝ) := Nat.cast_nonneg n
  push_cast
  nlinarith

/-- Every speed cap is positive. -/
theorem getSpeedCap_pos (n : ℕ) : 0 < GetSpeedCap (n : ℤ) :=
  lt_of_lt_of_le (by norm_num) (getSpeedCap_lb n)

/-- The initial ball speed is below every speed cap. -/
theorem initialBallSpeed_le_cap (n : ℕ) : InitialBallSpeed ≤ GetSpeedCap (n : ℤ) := by
  have := getSpeedCap_lb n
  unfold InitialBallSpeed
  linarith

/-- The speed cap is non-decreasing in the roster size. -/
theorem getSpeedCap_mono {m n : ℕ} (h : m ≤ n) : GetSpeedCap (m : ℤ) ≤ GetSpeedCap (n : ℤ) := by
  unfold GetSpeedCap SpeedCapPerPlayer
  have : (m : ℝ) ≤ (n : ℝ) := by exact_mod_cast h
  push_cast
  linarith

/-- `ProcessInput` never moves a paddle between teams. -/
theorem processInput_team (p : Paddle) (dir : Direction) : (p.processInput dir).team = p.team := by
  cases dir <;> rfl

/-- Pointwise team-preserving edits of one paddle keep all side counts. -/
theorem countPlayersOnSide_modifyPaddle (id : ℤ) (f : Paddle → Paddle)
    (hf : ∀ p, (f p).team = p.team) (l : List Paddle) (t : Team) :
    countPlayersOnSide (modifyPaddle id f l) t = countPlayersOnSide l t := by
  induction l with
  | nil => rfl
  | cons p rest ih =>
    simp only [modifyPaddle]
    split_ifs with h
    · simp only [countPlayersOnSide, List.filter_cons, hf p]
      split_ifs <;> simp
    · simp only [countPlayersOnSide, List.filter_cons] at *
      split_ifs <;> simp [ih]

/-- Team-preserving maps of the roster keep all side counts. -/
theorem countPlayersOnSide_map (f : Paddle → Paddle) (hf : ∀ p, (f p).team = p.team)
    (l : List Paddle) (t : Team) :
    countPlayersOnSide (l.map f) t = countPlayersOnSide l t := by
  induction l with
  | nil => rfl
  | cons p rest ih =>
    simp only [List.map_cons, countPlayersOnSide, List.filter_cons, hf p] at *
    split_ifs <;> simp [ih]

/-- The collision scan never pushes the ball's speed above a bound that
dominates every side's cap. -/
theorem collideBall_speed_le (all : List Paddle) (C : ℝ)
    (hcap : ∀ t : Team, GetSpeedCap ((countPlayersOnSide all t : ℕ) : ℤ) ≤ C) :
    ∀ (sub : List Paddle) (ball : Ball), ball.speed ≤ C →
      (collideBall all ball sub).speed ≤ C := by
  intro sub
  induction sub with
  | nil => intro ball hb; exact hb
  | cons p rest ih =>
    intro ball hb
    simp only [collideBall]
    split_ifs with h1 h2 h3 h4 h5 <;>
    first
      | exact ih ball hb
      | exact le_trans (not_lt.mp (by assumption)) (hcap p.team)
      | (rw [speed_scale]
         have hcappos : 0 < GetSpeedCap ((countPlayersOnSide all p.team : ℕ) : ℤ) :=
           getSpeedCap_pos _
         have hspos :
             0 < Ball.speed ((ball.bounceOffPaddle p.y p.height).speedUp SpeedIncrement) :=
           lt_trans hcappos (by assumption)
         rw [abs_of_pos (div_pos hcappos hspos), div_mul_cancel₀ _ (ne_of_gt hspos)]
         exact hcap p.team)

/-- `CheckScore` touches neither the ball nor the paddles. -/
theorem checkScore_ball_paddles (gs : GameState) :
    gs.checkScore.ball = gs.ball ∧ gs.checkScore.paddles = gs.paddles := by
  unfold GameState.checkScore GameState.startPause
  dsimp only
  split_ifs <;> exact ⟨rfl, rfl⟩

/-- Equal rosters give equal larger-team sizes. -/
theorem maxTeamSize_eq_of_paddles {gs1 gs2 : GameState} (h : gs1.paddles = gs2.paddles) :
    maxTeamSize gs1 = maxTeamSize gs2 := by
  unfold maxTeamSize
  rw [h]

/-- The `AddPlayer` fold never touches the ball. -/
theorem foldl_addPlayer_ball (roster : List (ℤ × String)) (gs : GameState) :
    (roster.foldl (fun g pr => g.addPlayer pr.1 pr.2) gs).ball = gs.ball := by
  induction roster generalizing gs with
  | nil => rfl
  | cons pr rest ih =>
    rw [List.foldl_cons, ih]
    rfl

/-- A fresh ball is at rest. -/
theorem speed_NewBall (x y : ℝ) : (NewBall x y).speed = 0 := by
  simp [NewBall, Ball.speed]

/-- Speed only reads the squared velocity components. -/
theorem speed_eq_of_sq (b1 b2 : Ball) (hx : b1.vx * b1.vx = b2.vx * b2.vx)
    (hy : b1.vy * b1.vy = b2.vy * b2.vy) : b1.speed = b2.speed := by
  unfold Ball.speed
  rw [hx, hy]

/-- `Serve` either leaves the state alone or resets the ball and clears
the serve wait. -/
theorem serve_cases (gs : GameState) (pid : ℤ) (u : ℝ) :
    (gs.serve pid u).2 = gs ∨
    (gs.serve pid u).2 =
      { gs with
        ball := Ball.reset ((gs.width : ℝ) / 2) ((gs.height : ℝ) / 2)
          (gs.servingTeam == Team.left) u,
        waitingForServe := false } := by
  unfold GameState.serve
  by_cases hw : gs.waitingForServe
  · cases hfind : gs.getPaddle pid with
    | none => simp [hw, hfind]
    | some p =>
      by_cases ht : p.team = gs.servingTeam
      · simp [hw, hfind, ht]
      · simp [hw, hfind, ht]
  · simp [Bool.not_eq_true] at hw
    simp [hw]

/-- The tick path through collisions and scoring keeps the cap. -/
theorem collide_then_score_speed_le (s : GameState)
    (h : s.ball.speed ≤ GetSpeedCap ((maxTeamSize s : ℕ) : ℤ)) :
    (GameState.checkScore s.checkPaddleCollisions).ball.speed
      ≤ GetSpeedCap ((maxTeamSize (GameState.checkScore s.checkPaddleCollisions) : ℕ) : ℤ) := by
  obtain ⟨hcb, hcp⟩ := checkScore_ball_paddles s.checkPaddleCollisions
  rw [hcb, maxTeamSize_eq_of_paddles hcp]
  have hpp : (GameState.checkPaddleCollisions s).paddles = s.paddles := rfl
  rw [maxTeamSize_eq_of_paddles hpp]
  show (collideBall s.paddles s.ball s.paddles).speed ≤ _
  refine collideBall_speed_le s.paddles _ (fun t => ?_) s.paddles s.ball h
  apply getSpeedCap_mono
  unfold maxTeamSize
  cases t
  · exact le_max_left _ _
  · exact le_max_right _ _

/-- A roster mapped through `Paddle.Update` has the same larger-team
size. -/
theorem maxTeamSize_map_update (gs : GameState) (t : ℤ) (b : Ball) :
    maxTeamSize { gs with tick := t, paddles := gs.paddles.map Paddle.update, ball := b }
      = maxTeamSize gs := by
  unfold maxTeamSize
  dsimp only
  rw [countPlayersOnSide_map Paddle.update (fun p => rfl),
      countPlayersOnSide_map Paddle.update (fun p => rfl)]

/-- One `ProcessInput` keeps the speed-cap invariant. -/
theorem processInput_speed_le (gs : GameState) (pid : ℤ) (dir : Direction)
    (h : gs.ball.speed ≤ GetSpeedCap ((maxTeamSize gs : ℕ) : ℤ)) :
    (gs.processInput pid dir).ball.speed
      ≤ GetSpeedCap ((maxTeamSize (gs.processInput pid dir) : ℕ) : ℤ) := by
  have hcount : maxTeamSize (gs.processInput pid dir) = maxTeamSize gs := by
    unfold maxTeamSize GameState.processInput
    dsimp only
    rw [countPlayersOnSide_modifyPaddle _ _ (fun p => processInput_team p dir),
        countPlayersOnSide_modifyPaddle _ _ (fun p => processInput_team p dir)]
  rw [hcount]
  exact h

/-- One `Serve` keeps the speed-cap invariant. -/
theorem serve_speed_le (gs : GameState) (pid : ℤ) (u : ℝ)
    (h : gs.ball.speed ≤ GetSpeedCap ((maxTeamSize gs : ℕ) : ℤ)) :
    (gs.serve pid u).2.ball.speed
      ≤ GetSpeedCap ((maxTeamSize (gs.serve pid u).2 : ℕ) : ℤ) := by
  rcases serve_cases gs pid u with hc | hc <;> rw [hc]
  · exact h
  · have hm : maxTeamSize
        { gs with
          ball := Ball.reset ((gs.width : ℝ) / 2) ((gs.height : ℝ) / 2)
            (gs.servingTeam == Team.left) u,
          waitingForServe := false } = maxTeamSize gs := rfl
    rw [hm]
    dsimp only
    rw [reset_speed]
    exact initialBallSpeed_le_cap _

/-- One `Update` tick keeps the speed-cap invariant. -/
theorem update_speed_le (gs : GameState)
    (h : gs.ball.speed ≤ GetSpeedCap ((maxTeamSize gs : ℕ) : ℤ)) :
    gs.update.ball.speed ≤ GetSpeedCap ((maxTeamSize gs.update : ℕ) : ℤ) := by
  unfold GameState.update
  dsimp only
  by_cases hp : gs.paused
  · rw [if_pos hp]
    by_cases ht : gs.pauseTicksLeft - 1 ≤ 0
    · rw [if_pos ht]
      dsimp only
      simp only [Ball.speed, mul_zero, add_zero, Real.sqrt_zero]
      exact (getSpeedCap_pos _).le
    · rw [if_neg ht]
      exact h
  · rw [if_neg hp]
    try dsimp only
    by_cases hw : gs.waitingForServe
    · rw [if_pos hw]
      rw [maxTeamSize_map_update]
      exact h
    · rw [if_neg hw]
      split_ifs with hwall h0 hH
      all_goals
        apply collide_then_score_speed_le
      all_goals
        rw [maxTeamSize_map_update]
      all_goals
        refine le_trans (le_of_eq (speed_eq_of_sq _ gs.ball ?_ ?_)) h <;>
          simp only [Ball.move, Ball.bounceVertical] <;> ring

/-- The state `AssignTeams` produces satisfies the speed cap. -/
theorem assignTeams_speed_le (width height pointsToWin : ℤ) (roster : List (ℤ × String))
    (sh : List Paddle) (lr : Bool) (u : ℝ) :
    ((initialLobby width height pointsToWin roster).assignTeams sh lr u).ball.speed
      ≤ GetSpeedCap
        ((maxTeamSize ((initialLobby width height pointsToWin roster).assignTeams sh lr u) : ℕ) : ℤ) := by
  unfold GameState.assignTeams
  by_cases hemp : (initialLobby width height pointsToWin roster).paddles.length = 0
  · rw [if_pos hemp]
    have hb : (initialLobby width height pointsToWin roster).ball
        = NewBall ((width : ℝ) / 2) ((height : ℝ) / 2) := by
      unfold initialLobby
      rw [foldl_addPlayer_ball]
      rfl
    rw [hb, speed_NewBall]
    exact (getSpeedCap_pos _).le
  · rw [if_neg hemp]
    dsimp only
    rw [reset_speed]
    exact initialBallSpeed_le_cap _

/-- C2: in every state reachable from a match start by ticks, inputs and
serves, the ball's speed never exceeds the cap derived from the larger
team's size. -/
theorem ball_speed_le_cap (gs : GameState) (h : Reach gs) :
    gs.ball.speed ≤ GetSpeedCap ((maxTeamSize gs : ℕ) : ℤ) := by
  induction h with
  | start width height pointsToWin roster sh lr u hperm =>
    exact assignTeams_speed_le width height pointsToWin roster sh lr u
  | tick hr ih => exact update_speed_le _ ih
  | input pid dir hr ih => exact processInput_speed_le _ pid dir ih
  | serve pid u hr ih => exact serve_speed_le _ pid u ih

/-- C2 witness: the invariant at a concrete reachable state — a fresh 2p
match on an 80×24 court with the identity shuffle. -/
theorem ball_speed_le_cap_witness :
    ((initialLobby 80 24 10 [(1, "a"), (2, "b")]).assignTeams
        (initialLobby 80 24 10 [(1, "a"), (2, "b")]).paddles true 0).ball.speed
      ≤ GetSpeedCap
        ((maxTeamSize ((initialLobby 80 24 10 [(1, "a"), (2, "b")]).assignTeams
          (initialLobby 80 24 10 [(1, "a"), (2, "b")]).paddles true 0) : ℕ) : ℤ) :=
  ball_speed_le_cap _
    (Reach.start 80 24 10 [(1, "a"), (2, "b")] _ true 0 (List.Perm.refl _))

/-- C10 witness: the serve succeeds and launches rightward in the
concrete left-serving demo state, at angle sample `u = 1/2`. -/
theorem serve_success_witness :
    (serveDemoState.serve 1 (1 / 2)).1 = true ∧
    (serveDemoState.serve 1 (1 / 2)).2.waitingForServe = false ∧
    (serveDemoState.serve 1 (1 / 2)).2.ball.x = (serveDemoState.width : ℝ) / 2 ∧
    (serveDemoState.serve 1 (1 / 2)).2.ball.y = (serveDemoState.height : ℝ) / 2 ∧
    (serveDemoState.serve 1 (1 / 2)).2.ball.speed = InitialBallSpeed ∧
    (0 < (serveDemoState.serve 1 (1 / 2)).2.ball.vx ↔
      serveDemoState.servingTeam = Team.left) :=
  serve_success serveDemoState 1 (1 / 2) rfl (NewPaddle 1 Team.left 5 0) rfl rfl
    (by norm_num) (by norm_num)

/-- C1 exhibit: with two joined clients both advertising 80×24 terminals,
`StartGame` builds a 40×20 court.  The component-wise minimum of the
advertised sizes is 80×24; the recalculation inside `StartGame` folds
from `MinTermWidth × MinTermHeight` instead of from the clients' sizes,
so it can never exceed 40×20. -/
theorem startGame_court_ignores_larger_terminals :
    (Server.startGame
        { clients := [{ id := 1, name := "a", width := 80, height := 24 },
                      { id := 2, name := "b", width := 80, height := 24 }],
          pointsToWin := 10 }
        [NewPaddle 1 Team.left 0 0, NewPaddle 2 Team.left 0 1] true 0).map
      (fun gs => (gs.width, gs.height)) = some (40, 20) := by
  rfl

end PixPong
